import Mathlib

/-!
Shallow embedding of the data-source service layer
(`packages/back-end/src/services/datasource.ts`) and the columns model
(`packages/back-end/src/models/InformationSchemaColumnsModel.ts`).

JavaScript objects holding string-valued connection parameters are embedded
as association lists `List (String × String)`; reading a key returns
`Option String` (`none` models `undefined`), and JS string truthiness is
`v ≠ ""`.  Asynchronous calls that may throw are embedded as
`Except String` values carrying the thrown error's `message`.  The Mongo
document store is embedded as an explicit state record threaded through the
orchestration functions; external library calls (`crypto-js` AES, `JSON`,
`uniqid`) are embedded by their contracts, as noted at each definition.
-/

/-- A JavaScript object with string values, as an association list. -/
def Obj : Type := List (String × String)

instance : DecidableEq Obj := by
  unfold Obj
  infer_instance

/-- Property read `o[k]`: first binding of `k`, `none` for `undefined`. -/
def objGet : Obj → String → Option String
  | [], _ => none
  | (k', v') :: rest, k => if k' = k then some v' else objGet rest k

/-- Property write `o[k] = v`: replace the first binding of `k`, or append. -/
def objSet : Obj → String → String → Obj
  | [], k, v => [(k, v)]
  | (k', v') :: rest, k, v =>
    if k' = k then (k, v) :: rest else (k', v') :: objSet rest k v

/-- The keys of an object, in order (`Object.keys`). -/
def objKeys (o : Obj) : List String := o.map Prod.fst

section CredentialCodec

/- `encryptParams` / `decryptDataSourceParams` compose the external
`crypto-js` AES cipher with the external `JSON` serializer around the
process-wide `ENCRYPTION_KEY`; the external collaborators are taken as
parameters of the embedding. -/

variable (Params : Type)
variable (stringify : Params → String)
variable (parse : String → Params)
variable (aesEncrypt : String → String → String)
variable (aesDecrypt : String → String → String)
variable (ENCRYPTION_KEY : String)

/-- `encryptParams(params)`: serialize, then encrypt with the process key. -/
def encryptParams (params : Params) : String :=
  aesEncrypt (stringify params) ENCRYPTION_KEY

/-- `decryptDataSourceParams(encrypted)`: decrypt with the process key, then
deserialize. -/
def decryptDataSourceParams (encrypted : String) : Params :=
  parse (aesDecrypt encrypted ENCRYPTION_KEY)

end CredentialCodec

/-- Raw, backend-native schema metadata (opaque to the orchestrator). -/
structure RawSchema where
  raw : String
deriving DecidableEq

/-- A column of the canonical information-schema tree, as declared by the
mongoose schema in `InformationSchemaColumnsModel.ts`. -/
structure Column where
  id : String
  column_name : String
  data_type : String
  path : String
deriving DecidableEq

/-- A table node of the canonical tree; `columns_id` is the back-reference
to the separately persisted columns document. -/
structure TableNode where
  table_name : String
  columns : List Column
  columns_id : String
deriving DecidableEq

/-- A schema node of the canonical tree. -/
structure SchemaNode where
  schema_name : String
  tables : List TableNode
deriving DecidableEq

/-- A database node of the canonical tree (`InformationSchema` element). -/
structure DatabaseNode where
  database_name : String
  schemas : List SchemaNode
deriving DecidableEq

/-- A row returned by a test query (`TestQueryRow`). -/
def TestQueryRow : Type := List (String × String)

instance : DecidableEq TestQueryRow := by
  unfold TestQueryRow
  infer_instance

/-- A `SourceIntegrationInterface` driver instance: decrypted `params`,
stamped identity, the mandatory `getSensitiveParamKeys`, and the optional
capabilities, each `none` when the concrete driver does not implement it.
Fallible capabilities return `Except String` carrying the thrown message. -/
structure Integration where
  params : Obj
  organization : String
  datasource : String
  sensitiveParamKeys : List String
  getInformationSchemaCap : Option (Option String → Except String RawSchema)
  formatInformationSchemaCap : Option (RawSchema → String → Except String (List DatabaseNode))
  getTestQueryCap : Option (String → String)
  runTestQueryCap : Option (String → Except String (List TestQueryRow × Nat))

/-- One step of the redaction loop of `getNonSensitiveParams`:
`if (ret[k]) { ret[k] = ""; }`. -/
def redactStep (ret : Obj) (k : String) : Obj :=
  match objGet ret k with
  | some v => if v = "" then ret else objSet ret k ""
  | none => ret

/-- `getNonSensitiveParams(integration)`: copy `params`, then blank every
truthy sensitive key. -/
def getNonSensitiveParams (integration : Integration) : Obj :=
  integration.sensitiveParamKeys.foldl redactStep integration.params

/-- One step of the merge loop of `mergeParams`: skip a sensitive key whose
incoming value is falsy, otherwise assign the incoming value. -/
def mergeStep (newParams : Obj) (secretKeys : List String) (params : Obj)
    (k : String) : Obj :=
  match objGet newParams k with
  | some v => if k ∈ secretKeys ∧ v = "" then params else objSet params k v
  | none => params

/-- `mergeParams(integration, newParams)`: fold the merge step over
`Object.keys(newParams)`, starting from the stored params; returns the
updated `integration.params`. -/
def mergeParams (integration : Integration) (newParams : Obj) : Obj :=
  (objKeys newParams).foldl
    (mergeStep newParams integration.sensitiveParamKeys)
    integration.params

/-- The return type of `generateInformationSchema`: either the formatted
tree (`{ informationSchema }`, no error field) or `{ error }` with no tree. -/
inductive GenResult where
  | schema (informationSchema : List DatabaseNode)
  | failure (error : String)
deriving DecidableEq

/-- `generateInformationSchema(datasource)` after factory construction:
if either introspection capability is absent, return the empty schema;
otherwise call `getInformationSchema(params.projectId)` then
`formatInformationSchema(raw, datasource.type)`, catching any thrown error
as `{ error: e.message }`. -/
def generateInformationSchema (integration : Integration) (dsType : String) :
    GenResult :=
  match integration.getInformationSchemaCap,
      integration.formatInformationSchemaCap with
  | some getIS, some formatIS =>
    match getIS (objGet integration.params "projectId") with
    | .error e => .failure e
    | .ok rawInformationSchema =>
      match formatIS rawInformationSchema dsType with
      | .error e => .failure e
      | .ok informationSchema => .schema informationSchema
  | _, _ => .schema []

/-- Settings of a data source: the schema back-link plus the remaining
per-backend settings fields, kept opaque as an association list. -/
structure DataSourceSettings where
  informationSchemaId : Option String
  other : Obj
deriving DecidableEq

/-- A persisted `DataSourceInterface` record (the fields this layer uses). -/
structure DataSourceInterface where
  id : String
  organization : String
  type : String
  settings : DataSourceSettings
deriving DecidableEq

/-- A mongoose `InformationSchemaColumnsDocument`: the interface fields plus
the Mongo-internal `_id` and `__v` fields added by `Model.create`. -/
structure InformationSchemaColumnsDocument where
  id : String
  organization : String
  columns : List Column
  dateCreated : Nat
  dateUpdated : Nat
  _id : String
  __v : Nat
deriving DecidableEq

/-- An `InformationSchemaColumnsInterface`: the document without the
Mongo-internal fields. -/
structure InformationSchemaColumnsInterface where
  id : String
  organization : String
  columns : List Column
  dateCreated : Nat
  dateUpdated : Nat
deriving DecidableEq

/-- `toInterface(doc)`: `omit(doc.toJSON(), ["__v", "_id"])`. -/
def toInterface (doc : InformationSchemaColumnsDocument) :
    InformationSchemaColumnsInterface :=
  { id := doc.id
    organization := doc.organization
    columns := doc.columns
    dateCreated := doc.dateCreated
    dateUpdated := doc.dateUpdated }

/-- A persisted `InformationSchema` document. -/
structure InformationSchemaDocument where
  id : String
  databases : List DatabaseNode
  organization : String
deriving DecidableEq

/-- The Document Store: the three collections this layer writes, a clock for
`new Date()`, and a counter from which the external `uniqid` generator and
Mongo's `ObjectId` are modelled as fresh identifiers. -/
structure DocStore where
  nextId : Nat
  now : Nat
  columnsDocs : List InformationSchemaColumnsDocument
  infoSchemaDocs : List InformationSchemaDocument
  dataSources : List DataSourceInterface
deriving DecidableEq

/-- The external `uniqid(prefixStr)` generator, modelled as the prefix
followed by a fresh counter value. -/
def uniqid (p : String) (n : Nat) : String := p ++ Nat.repr n

/-- `createInformationSchemaColumns(columns, organization)`: build the Mongo
document with a fresh `uniqid("cols_")` id and creation dates, persist it,
and return `toInterface` of it. -/
def createInformationSchemaColumns (columns : List Column)
    (organization : String) (st : DocStore) :
    InformationSchemaColumnsInterface × DocStore :=
  let doc : InformationSchemaColumnsDocument :=
    { id := uniqid "cols_" st.nextId
      organization := organization
      columns := columns
      dateCreated := st.now
      dateUpdated := st.now
      _id := uniqid "oid_" st.nextId
      __v := 0 }
  (toInterface doc,
    { st with
        nextId := st.nextId + 1
        columnsDocs := st.columnsDocs ++ [doc] })

/-- Modelled from the spec: `createInformationSchema(tree, organization) ->
id` (the InformationSchema model is not part of the reviewed source);
persists one InformationSchema document for the tree and returns its fresh
id. -/
def createInformationSchema (databases : List DatabaseNode)
    (organization : String) (st : DocStore) : String × DocStore :=
  let docId := uniqid "infsch_" st.nextId
  (docId,
    { st with
        nextId := st.nextId + 1
        infoSchemaDocs := st.infoSchemaDocs ++
          [{ id := docId, databases := databases, organization := organization }] })

/-- Modelled from the spec: `updateDataSource(id, organization,
partialUpdate)` (the DataSource model is not part of the reviewed source);
the partial update carries a `settings` object that is merged into the
matching record. -/
def updateDataSource (id : String) (organization : String)
    (newSettings : DataSourceSettings) (st : DocStore) : DocStore :=
  { st with
      dataSources := st.dataSources.map fun r =>
        if r.id = id ∧ r.organization = organization then
          { r with settings := newSettings }
        else r }

/-- The inner loop of `createInitialInformationSchema` over the tables of
one schema: persist each table's columns and write the returned id onto the
table node. -/
def persistTables (organization : String) :
    List TableNode → DocStore → List TableNode × DocStore
  | [], st => ([], st)
  | table :: rest, st =>
    let r := createInformationSchemaColumns table.columns organization st
    let rec' := persistTables organization rest r.2
    ({ table with columns_id := r.1.id } :: rec'.1, rec'.2)

/-- The loop of `createInitialInformationSchema` over the schemas of one
database. -/
def persistSchemas (organization : String) :
    List SchemaNode → DocStore → List SchemaNode × DocStore
  | [], st => ([], st)
  | schema :: rest, st =>
    let r := persistTables organization schema.tables st
    let rec' := persistSchemas organization rest r.2
    ({ schema with tables := r.1 } :: rec'.1, rec'.2)

/-- The outer loop of `createInitialInformationSchema` over the databases of
the tree. -/
def persistDatabases (organization : String) :
    List DatabaseNode → DocStore → List DatabaseNode × DocStore
  | [], st => ([], st)
  | database :: rest, st =>
    let r := persistSchemas organization database.schemas st
    let rec' := persistDatabases organization rest r.2
    ({ database with schemas := r.1 } :: rec'.1, rec'.2)

/-- `createInitialInformationSchema(datasource, organization)`: generate the
tree; when the result carries an `informationSchema` field (any array is
truthy in JS, including the empty one), persist every table's columns,
persist the tree, and when the returned id is truthy, write the back-link
into `datasource.settings`. -/
def createInitialInformationSchema (integration : Integration)
    (datasource : DataSourceInterface) (organization : String)
    (st : DocStore) : DocStore :=
  match generateInformationSchema integration datasource.type with
  | .failure _ => st
  | .schema informationSchema =>
    let r := persistDatabases organization informationSchema st
    let r2 := createInformationSchema r.1 organization r.2
    if r2.1 ≠ "" then
      updateDataSource datasource.id organization
        { informationSchemaId := some r2.1
          other := datasource.settings.other } r2.2
    else r2.2

/-- The return shape of `testQuery`: optional rows, duration, error and the
bounded sql, mirroring the union returned by the source. -/
structure TestQueryResult where
  results : Option (List TestQueryRow)
  duration : Option Nat
  error : Option String
  sql : Option String
deriving DecidableEq

/-- One entry of the call trace `testQuery` leaves behind: which driver
capability was invoked, and with which string argument. -/
structure DriverCall where
  capability : String
  argument : String
deriving DecidableEq

/-- `testQuery(datasource, query)`: throw `"Unable to test query."` when
either capability is absent; otherwise build the bounded sql with
`getTestQuery`, run it, and on a thrown execution error return the message
together with the sql.  The second component records every driver
capability actually invoked, in order. -/
def testQuery (integration : Integration) (query : String) :
    Except String TestQueryResult × List DriverCall :=
  match integration.getTestQueryCap, integration.runTestQueryCap with
  | some getTQ, some runTQ =>
    let sql := getTQ query
    match runTQ sql with
    | .ok rd =>
      (.ok { results := some rd.1, duration := some rd.2,
             error := none, sql := some sql },
       [⟨"getTestQuery", query⟩, ⟨"runTestQuery", sql⟩])
    | .error e =>
      (.ok { results := none, duration := none,
             error := some e, sql := some sql },
       [⟨"getTestQuery", query⟩, ⟨"runTestQuery", sql⟩])
  | _, _ => (.error "Unable to test query.", [])

/-! ### Freshness of generated identifiers

`uniqid` is modelled as prefix-plus-counter, so distinctness of generated
ids reduces to injectivity of the decimal printer `Nat.repr`, proved here by
reading the digit list back. -/

theorem toDigitsCore_append (fuel : Nat) :
    ∀ (n : Nat) (ds : List Char),
      Nat.toDigitsCore 10 fuel n ds = Nat.toDigitsCore 10 fuel n [] ++ ds := by
  induction fuel with
  | zero => intro n ds; simp [Nat.toDigitsCore]
  | succ f ih =>
    intro n ds
    simp only [Nat.toDigitsCore]
    by_cases h : n / 10 = 0
    · simp [h]
    · rw [if_neg h, if_neg h, ih, ih (n / 10) [Nat.digitChar (n % 10)]]
      simp

theorem toDigitsCore_fuel :
    ∀ (n f₁ f₂ : Nat), n < f₁ → n < f₂ → ∀ ds : List Char,
      Nat.toDigitsCore 10 f₁ n ds = Nat.toDigitsCore 10 f₂ n ds := by
  intro n
  induction n using Nat.strong_induction_on with
  | _ n ih =>
    intro f₁ f₂ h₁ h₂ ds
    match f₁, f₂ with
    | g₁ + 1, g₂ + 1 =>
      simp only [Nat.toDigitsCore]
      by_cases h : n / 10 = 0
      · rw [if_pos h, if_pos h]
      · rw [if_neg h, if_neg h]
        exact ih (n / 10) (by omega) g₁ g₂ (by omega) (by omega) _

theorem digitChar_val (n : Nat) (h : n < 10) :
    (Nat.digitChar n).toNat - 48 = n := by
  interval_cases n <;> decide

theorem foldl_toDigitsCore (n : Nat) :
    List.foldl (fun a c => a * 10 + (Char.toNat c - 48)) 0
      (Nat.toDigitsCore 10 (n + 1) n []) = n := by
  induction n using Nat.strong_induction_on with
  | _ n ih =>
    simp only [Nat.toDigitsCore]
    by_cases h : n / 10 = 0
    · rw [if_pos h]
      simp only [List.foldl]
      rw [digitChar_val (n % 10) (by omega)]
      omega
    · rw [if_neg h, toDigitsCore_append, List.foldl_append,
        toDigitsCore_fuel (n / 10) n (n / 10 + 1) (by omega) (by omega),
        ih (n / 10) (by omega)]
      simp only [List.foldl]
      rw [digitChar_val (n % 10) (by omega)]
      omega

theorem repr_injective (a b : Nat) (h : Nat.repr a = Nat.repr b) : a = b := by
  have hd : Nat.toDigits 10 a = Nat.toDigits 10 b := by
    have h2 := congrArg String.data h
    simpa [Nat.repr, List.asString] using h2
  have ha := foldl_toDigitsCore a
  have hb := foldl_toDigitsCore b
  unfold Nat.toDigits at hd
  rw [hd] at ha
  omega

theorem uniqid_injective (p : String) (m n : Nat)
    (h : uniqid p m = uniqid p n) : m = n := by
  unfold uniqid at h
  have h2 := congrArg String.data h
  simp only [String.data_append] at h2
  have h3 := List.append_cancel_left h2
  exact repr_injective m n (by
    apply String.ext
    exact h3)

theorem uniqid_infsch_ne_empty (n : Nat) : uniqid "infsch_" n ≠ "" := by
  intro h
  have h2 := congrArg String.length h
  rw [uniqid, String.length_append] at h2
  have h7 : ("infsch_" : String).length = 7 := rfl
  have h0 : ("" : String).length = 0 := rfl
  omega

/-! ### Association-list lemmas for the JS-object embedding -/

theorem objGet_objSet_self (o : Obj) (k v : String) :
    objGet (objSet o k v) k = some v := by
  induction o with
  | nil => simp [objSet, objGet]
  | cons p rest ih =>
    by_cases h : p.1 = k
    · simp [objSet, objGet, h]
    · simp [objSet, objGet, h, ih]

theorem objGet_objSet_ne (o : Obj) (k k' v : String) (h : k' ≠ k) :
    objGet (objSet o k v) k' = objGet o k' := by
  induction o with
  | nil => simp [objSet, objGet, h, Ne.symm h]
  | cons p rest ih =>
    by_cases hp : p.1 = k
    · simp [objSet, objGet, hp, h, Ne.symm h]
    · by_cases hq : p.1 = k'
      · simp [objSet, objGet, hp, hq, h, Ne.symm h]
      · simp [objSet, objGet, hp, hq, ih]

theorem objGet_some_mem (o : Obj) (k v : String) (h : objGet o k = some v) :
    k ∈ objKeys o := by
  induction o with
  | nil => simp [objGet] at h
  | cons p rest ih =>
    by_cases hp : p.1 = k
    · simp [objKeys, hp]
    · simp only [objGet, if_neg hp] at h
      simp [objKeys] at ih ⊢
      exact Or.inr (ih h)

/-! ### Redaction lemmas -/

theorem redactStep_get_ne (o : Obj) (k k' : String) (h : k' ≠ k) :
    objGet (redactStep o k) k' = objGet o k' := by
  unfold redactStep
  cases hg : objGet o k with
  | none => rfl
  | some v =>
    by_cases hv : v = ""
    · simp [hv]
    · simp [hv, objGet_objSet_ne o k k' "" h]

theorem redactStep_get_self (o : Obj) (k : String) :
    objGet (redactStep o k) k = none ∨ objGet (redactStep o k) k = some "" := by
  unfold redactStep
  cases hg : objGet o k with
  | none => exact Or.inl hg
  | some v =>
    dsimp only
    by_cases hv : v = ""
    · rw [if_pos hv]
      exact Or.inr (hv ▸ hg)
    · rw [if_neg hv]
      exact Or.inr (objGet_objSet_self o k "")

theorem redact_foldl_preserve (k : String) (ks : List String) (o : Obj)
    (h : objGet o k = none ∨ objGet o k = some "") :
    objGet (ks.foldl redactStep o) k = none ∨
      objGet (ks.foldl redactStep o) k = some "" := by
  induction ks generalizing o with
  | nil => exact h
  | cons a t ih =>
    apply ih
    by_cases ha : a = k
    · rw [ha]
      exact redactStep_get_self o k
    · rw [redactStep_get_ne o a k (fun e => ha e.symm)]
      exact h

theorem redact_foldl_not_mem (k : String) (ks : List String) (o : Obj)
    (h : k ∉ ks) :
    objGet (ks.foldl redactStep o) k = objGet o k := by
  induction ks generalizing o with
  | nil => rfl
  | cons a t ih =>
    simp only [List.mem_cons, not_or] at h
    rw [List.foldl_cons, ih _ h.2, redactStep_get_ne o a k h.1]

theorem redact_foldl_mem (k : String) (ks : List String) (o : Obj)
    (h : k ∈ ks) :
    objGet (ks.foldl redactStep o) k = none ∨
      objGet (ks.foldl redactStep o) k = some "" := by
  induction ks generalizing o with
  | nil => cases h
  | cons a t ih =>
    rw [List.foldl_cons]
    by_cases hk : k ∈ t
    · exact ih (redactStep o a) hk
    · have hka : k = a := ((List.mem_cons.mp h).resolve_right hk)
      apply redact_foldl_preserve
      rw [hka]
      exact redactStep_get_self o a

/-! ### Merge lemmas -/

theorem mergeStep_get_ne (U : Obj) (secret : List String) (o : Obj)
    (k k' : String) (h : k' ≠ k) :
    objGet (mergeStep U secret o k) k' = objGet o k' := by
  unfold mergeStep
  cases hg : objGet U k with
  | none => rfl
  | some v =>
    by_cases hv : k ∈ secret ∧ v = ""
    · simp [hv]
    · simp [hv, objGet_objSet_ne o k k' v h]

theorem merge_foldl_not_mem (U : Obj) (secret : List String)
    (ks : List String) (o : Obj) (k : String) (h : k ∉ ks) :
    objGet (ks.foldl (mergeStep U secret) o) k = objGet o k := by
  induction ks generalizing o with
  | nil => rfl
  | cons a t ih =>
    simp only [List.mem_cons, not_or] at h
    rw [List.foldl_cons, ih _ h.2, mergeStep_get_ne U secret o a k h.1]

theorem merge_foldl_mem (U : Obj) (secret : List String)
    (ks : List String) (o : Obj) (k : String) (hnd : ks.Nodup)
    (hk : k ∈ ks) :
    objGet (ks.foldl (mergeStep U secret) o) k =
      match objGet U k with
      | some v => if k ∈ secret ∧ v = "" then objGet o k else some v
      | none => objGet o k := by
  induction ks generalizing o with
  | nil => cases hk
  | cons a t ih =>
    have hnd' := List.nodup_cons.mp hnd
    rw [List.foldl_cons]
    by_cases hk' : k ∈ t
    · have hne : k ≠ a := fun e => hnd'.1 (e ▸ hk')
      rw [ih (mergeStep U secret o a) hnd'.2 hk']
      cases hU : objGet U k with
      | none =>
        dsimp only
        exact mergeStep_get_ne U secret o a k hne
      | some v =>
        dsimp only
        by_cases hv : k ∈ secret ∧ v = ""
        · simp only [if_pos hv]
          exact mergeStep_get_ne U secret o a k hne
        · simp only [if_neg hv]
    · have hka : k = a := ((List.mem_cons.mp hk).resolve_right hk')
      subst hka
      rw [merge_foldl_not_mem U secret t (mergeStep U secret o k) k hnd'.1]
      unfold mergeStep
      cases hU : objGet U k with
      | none => rfl
      | some v =>
        by_cases hv : k ∈ secret ∧ v = ""
        · simp [hv]
        · simp [hv, objGet_objSet_self o k v]

/-! ### Behaviour of `generateInformationSchema` by capability shape -/

theorem generate_absent (D : Integration) (dsType : String)
    (h : D.getInformationSchemaCap = none ∨
      D.formatInformationSchemaCap = none) :
    generateInformationSchema D dsType = .schema [] := by
  unfold generateInformationSchema
  cases hg : D.getInformationSchemaCap with
  | none => rfl
  | some g =>
    cases hf : D.formatInformationSchemaCap with
    | none => rfl
    | some f =>
      rw [hg, hf] at h
      rcases h with h | h <;> simp at h

theorem generate_throw (D : Integration) (dsType : String)
    (g : Option String → Except String RawSchema)
    (f : RawSchema → String → Except String (List DatabaseNode))
    (msg : String)
    (hg : D.getInformationSchemaCap = some g)
    (hf : D.formatInformationSchemaCap = some f)
    (hthrow : g (objGet D.params "projectId") = .error msg ∨
      ∃ raw, g (objGet D.params "projectId") = .ok raw ∧
        f raw dsType = .error msg) :
    generateInformationSchema D dsType = .failure msg := by
  unfold generateInformationSchema
  rw [hg, hf]
  dsimp only
  rcases hthrow with h | ⟨raw, h1, h2⟩
  · rw [h]
  · rw [h1]
    dsimp only
    rw [h2]

theorem generate_ok (D : Integration) (dsType : String)
    (g : Option String → Except String RawSchema)
    (f : RawSchema → String → Except String (List DatabaseNode))
    (raw : RawSchema) (tree : List DatabaseNode)
    (hg : D.getInformationSchemaCap = some g)
    (hf : D.formatInformationSchemaCap = some f)
    (hraw : g (objGet D.params "projectId") = .ok raw)
    (hfmt : f raw dsType = .ok tree) :
    generateInformationSchema D dsType = .schema tree := by
  unfold generateInformationSchema
  rw [hg, hf]
  dsimp only
  rw [hraw]
  dsimp only
  rw [hfmt]

/-! ### Concrete fixtures used by witnesses and counterexamples -/

/-- A driver with a sensitive `pass` key and no optional capabilities
(the Mixpanel-like shape). -/
def sampleDriver : Integration :=
  { params := [("user", "a"), ("pass", "secret")]
    organization := "org1"
    datasource := "ds1"
    sensitiveParamKeys := ["pass"]
    getInformationSchemaCap := none
    formatInformationSchemaCap := none
    getTestQueryCap := none
    runTestQueryCap := none }

/-- A concrete data-source record. -/
def ds0 : DataSourceInterface :=
  { id := "ds1"
    organization := "org1"
    type := "postgres"
    settings := { informationSchemaId := none, other := [("queries", "q1")] } }

/-- A concrete initial document store holding `ds0`. -/
def st0 : DocStore :=
  { nextId := 0
    now := 17
    columnsDocs := []
    infoSchemaDocs := []
    dataSources := [ds0] }

/-- Concrete columns for the full-sync scenario. -/
def col1 : Column :=
  { id := "c1", column_name := "user_id", data_type := "text", path := "" }

/-- Second concrete column. -/
def col2 : Column :=
  { id := "c2", column_name := "ts", data_type := "timestamp", path := "" }

/-- Third concrete column. -/
def col3 : Column :=
  { id := "c3", column_name := "value", data_type := "float", path := "" }

/-- A driver whose introspection returns one database, one schema, one
table with three columns. -/
def threeColsDriver : Integration :=
  { params := []
    organization := "org1"
    datasource := "ds1"
    sensitiveParamKeys := []
    getInformationSchemaCap := some (fun _ => .ok { raw := "rawblob" })
    formatInformationSchemaCap := some (fun _ _ =>
      .ok [{ database_name := "db1"
             schemas := [{ schema_name := "sch1"
                           tables := [{ table_name := "tbl1"
                                        columns := [col1, col2, col3]
                                        columns_id := "" }] }] }])
    getTestQueryCap := none
    runTestQueryCap := none }

/-- A driver whose `getInformationSchema` throws. -/
def throwingDriver : Integration :=
  { params := []
    organization := "org1"
    datasource := "ds1"
    sensitiveParamKeys := []
    getInformationSchemaCap := some (fun _ => .error "boom")
    formatInformationSchemaCap := some (fun _ _ => .ok [])
    getTestQueryCap := none
    runTestQueryCap := none }

/-- A driver whose `runTestQuery` throws. -/
def failingQueryDriver : Integration :=
  { params := []
    organization := "org1"
    datasource := "ds1"
    sensitiveParamKeys := []
    getInformationSchemaCap := none
    formatInformationSchemaCap := none
    getTestQueryCap := some (fun q => "SELECT * FROM (" ++ q ++ ") LIMIT 5")
    runTestQueryCap := some (fun _ => .error "syntax error") }

/-! ### The claims -/

/-- C1: for every valid parameter structure `P`, decrypting the result of
encrypting `P` with the same process-wide key returns `P`, given that the
external AES cipher round-trips under a fixed key and the external JSON
serializer round-trips on parameter structures. -/
theorem C1_decrypt_encrypt_roundtrip (Params : Type)
    (stringify : Params → String) (parse : String → Params)
    (aesEncrypt aesDecrypt : String → String → String)
    (ENCRYPTION_KEY : String)
    (hAES : ∀ s, aesDecrypt (aesEncrypt s ENCRYPTION_KEY) ENCRYPTION_KEY = s)
    (hJSON : ∀ p, parse (stringify p) = p) (P : Params) :
    decryptDataSourceParams Params parse aesDecrypt ENCRYPTION_KEY
      (encryptParams Params stringify aesEncrypt ENCRYPTION_KEY P) = P := by
  unfold decryptDataSourceParams encryptParams
  rw [hAES, hJSON]

/-- C1 witness: the round-trip at a concrete instantiation of the external
collaborators and a concrete parameter value. -/
theorem C1_witness :
    decryptDataSourceParams String id (fun s _ => s) "key0"
      (encryptParams String id (fun s _ => s) "key0" "paramsP") = "paramsP" :=
  C1_decrypt_encrypt_roundtrip String id id (fun s _ => s) (fun s _ => s)
    "key0" (fun _ => rfl) (fun _ => rfl) "paramsP"

/-- C2: `getNonSensitiveParams` leaves every sensitive key empty (blank, or
still absent) and every non-sensitive key identical to the stored value;
the driver's stored params are a separate, unmodified value in this pure
embedding. -/
theorem C2_redaction (D : Integration) (k : String) :
    (k ∈ D.sensitiveParamKeys →
      objGet (getNonSensitiveParams D) k = none ∨
        objGet (getNonSensitiveParams D) k = some "") ∧
    (k ∉ D.sensitiveParamKeys →
      objGet (getNonSensitiveParams D) k = objGet D.params k) := by
  constructor
  · intro h
    exact redact_foldl_mem k _ _ h
  · intro h
    exact redact_foldl_not_mem k _ _ h

/-- C2 witness: the sensitive `pass` key of the sample driver is blanked. -/
theorem C2_witness :
    objGet (getNonSensitiveParams sampleDriver) "pass" = none ∨
      objGet (getNonSensitiveParams sampleDriver) "pass" = some "" :=
  (C2_redaction sampleDriver "pass").1 (by decide)

/-- C3: `mergeParams` keeps the stored value for a key absent from the
update and for a sensitive key whose incoming value is empty, and
overwrites with the incoming value otherwise; in particular the two
concrete scenarios of the claim hold on the sample driver. -/
theorem C3_merge_preserve (D : Integration) (U : Obj)
    (hnd : (objKeys U).Nodup) (k : String) :
    (k ∉ objKeys U →
      objGet (mergeParams D U) k = objGet D.params k) ∧
    (∀ v, objGet U k = some v → k ∈ D.sensitiveParamKeys → v = "" →
      objGet (mergeParams D U) k = objGet D.params k) ∧
    (∀ v, objGet U k = some v →
      (k ∉ D.sensitiveParamKeys ∨ v ≠ "") →
      objGet (mergeParams D U) k = some v) ∧
    mergeParams sampleDriver [("pass", "")] =
      [("user", "a"), ("pass", "secret")] ∧
    mergeParams sampleDriver [("pass", "new")] =
      [("user", "a"), ("pass", "new")] := by
  refine ⟨?_, ?_, ?_, by decide, by decide⟩
  · intro h
    exact merge_foldl_not_mem U D.sensitiveParamKeys (objKeys U) D.params k h
  · intro v hv hsec hemp
    unfold mergeParams
    rw [merge_foldl_mem U D.sensitiveParamKeys (objKeys U) D.params k hnd
      (objGet_some_mem U k v hv), hv]
    dsimp only
    rw [if_pos ⟨hsec, hemp⟩]
  · intro v hv hcond
    unfold mergeParams
    rw [merge_foldl_mem U D.sensitiveParamKeys (objKeys U) D.params k hnd
      (objGet_some_mem U k v hv), hv]
    dsimp only
    rw [if_neg (fun hand => hcond.elim (fun h1 => h1 hand.1) (fun h2 => h2 hand.2))]

/-- C3 witness: a non-empty incoming value for the sensitive `pass` key
overwrites the stored secret. -/
theorem C3_witness :
    objGet (mergeParams sampleDriver [("pass", "new")]) "pass" = some "new" :=
  (C3_merge_preserve sampleDriver [("pass", "new")] (by decide) "pass").2.2.1
    "new" (by decide) (Or.inr (by decide))

/-- C4: when either introspection capability is absent,
`generateInformationSchema` returns the empty schema with no error field:
absence of the capability is a valid, non-error outcome. -/
theorem C4_capability_absent (D : Integration) (dsType : String)
    (h : D.getInformationSchemaCap = none ∨
      D.formatInformationSchemaCap = none) :
    generateInformationSchema D dsType = .schema [] :=
  generate_absent D dsType h

/-- C4 witness: the capability-less sample driver yields the empty schema. -/
theorem C4_witness :
    generateInformationSchema sampleDriver "mixpanel" = .schema [] :=
  C4_capability_absent sampleDriver "mixpanel" (Or.inl rfl)

/-- C5: when the driver's `getInformationSchema` (or
`formatInformationSchema`) throws, `generateInformationSchema` returns
`{ error: message }` and `createInitialInformationSchema` leaves the
document store untouched. -/
theorem C5_failure_isolation (D : Integration) (ds : DataSourceInterface)
    (organization : String) (st : DocStore)
    (g : Option String → Except String RawSchema)
    (f : RawSchema → String → Except String (List DatabaseNode))
    (msg : String)
    (hg : D.getInformationSchemaCap = some g)
    (hf : D.formatInformationSchemaCap = some f)
    (hthrow : g (objGet D.params "projectId") = .error msg ∨
      ∃ raw, g (objGet D.params "projectId") = .ok raw ∧
        f raw ds.type = .error msg) :
    generateInformationSchema D ds.type = .failure msg ∧
    createInitialInformationSchema D ds organization st = st := by
  have hgen := generate_throw D ds.type g f msg hg hf hthrow
  refine ⟨hgen, ?_⟩
  unfold createInitialInformationSchema
  rw [hgen]

/-- C5 witness: the throwing driver yields `{ error: "boom" }` and no
document-store writes on the concrete store. -/
theorem C5_witness :
    generateInformationSchema throwingDriver ds0.type = .failure "boom" ∧
    createInitialInformationSchema throwingDriver ds0 "org1" st0 = st0 :=
  C5_failure_isolation throwingDriver ds0 "org1" st0
    (fun _ => .error "boom") (fun _ _ => .ok []) "boom" rfl rfl (Or.inl rfl)

/-- C6 counterexample: for the capability-less sample driver the claim's
"no document-store writes" fails at a concrete input — the run persists an
(empty) InformationSchema document and updates the data-source record,
because `if (informationSchema)` is entered for the truthy empty array. -/
theorem C6_counterexample :
    (createInitialInformationSchema sampleDriver ds0 "org1" st0).infoSchemaDocs.length = 1 ∧
    (createInitialInformationSchema sampleDriver ds0 "org1" st0).dataSources ≠
      st0.dataSources := by
  constructor
  · rfl
  · decide

/-- C6 as amended: for a driver lacking an introspection capability, the
full synchronization creates no columns document, but it does create one
InformationSchema document with an empty tree and does update the record's
`settings.informationSchemaId` to that document's id (other settings fields
unchanged). -/
theorem C6_amended_skip (D : Integration) (ds : DataSourceInterface)
    (organization : String) (st : DocStore)
    (hcap : D.getInformationSchemaCap = none ∨
      D.formatInformationSchemaCap = none)
    (hds : st.dataSources = [ds]) (horg : ds.organization = organization) :
    (createInitialInformationSchema D ds organization st).columnsDocs =
      st.columnsDocs ∧
    (createInitialInformationSchema D ds organization st).infoSchemaDocs =
      st.infoSchemaDocs ++
        [{ id := uniqid "infsch_" st.nextId
           databases := []
           organization := organization }] ∧
    (createInitialInformationSchema D ds organization st).dataSources =
      [{ ds with settings :=
          { informationSchemaId := some (uniqid "infsch_" st.nextId)
            other := ds.settings.other } }] := by
  unfold createInitialInformationSchema
  rw [generate_absent D ds.type hcap]
  dsimp only
  simp only [persistDatabases, createInformationSchema]
  rw [if_pos (uniqid_infsch_ne_empty st.nextId)]
  unfold updateDataSource
  dsimp only
  rw [hds]
  simp [horg]

/-- C6 witness: the amended behaviour at the concrete fixtures. -/
theorem C6_witness :
    (createInitialInformationSchema sampleDriver ds0 "org1" st0).columnsDocs = [] ∧
    (createInitialInformationSchema sampleDriver ds0 "org1" st0).infoSchemaDocs =
      [{ id := "infsch_0", databases := [], organization := "org1" }] ∧
    (createInitialInformationSchema sampleDriver ds0 "org1" st0).dataSources =
      [{ ds0 with settings :=
          { informationSchemaId := some "infsch_0"
            other := ds0.settings.other } }] :=
  C6_amended_skip sampleDriver ds0 "org1" st0 (Or.inl rfl) rfl rfl

/-- C7: the full-sync scenario — a driver returning one database with one
schema with one table of three columns produces exactly one columns
document holding those columns, one InformationSchema document whose single
table's `columns_id` is that document's id, and the record's
`settings.informationSchemaId` is set to the tree document's id with the
other settings fields untouched. -/
theorem C7_full_sync (D : Integration) (ds : DataSourceInterface)
    (organization : String) (st : DocStore)
    (g : Option String → Except String RawSchema)
    (f : RawSchema → String → Except String (List DatabaseNode))
    (raw : RawSchema) (dbName schName tblName oldCid : String)
    (c1 c2 c3 : Column)
    (hg : D.getInformationSchemaCap = some g)
    (hf : D.formatInformationSchemaCap = some f)
    (hraw : g (objGet D.params "projectId") = .ok raw)
    (hfmt : f raw ds.type = .ok
      [{ database_name := dbName
         schemas := [{ schema_name := schName
                       tables := [{ table_name := tblName
                                    columns := [c1, c2, c3]
                                    columns_id := oldCid }] }] }])
    (hds : st.dataSources = [ds]) (horg : ds.organization = organization) :
    (createInitialInformationSchema D ds organization st).columnsDocs =
      st.columnsDocs ++
        [{ id := uniqid "cols_" st.nextId
           organization := organization
           columns := [c1, c2, c3]
           dateCreated := st.now
           dateUpdated := st.now
           _id := uniqid "oid_" st.nextId
           __v := 0 }] ∧
    (createInitialInformationSchema D ds organization st).infoSchemaDocs =
      st.infoSchemaDocs ++
        [{ id := uniqid "infsch_" (st.nextId + 1)
           databases := [{ database_name := dbName
                           schemas := [{ schema_name := schName
                                         tables := [{ table_name := tblName
                                                      columns := [c1, c2, c3]
                                                      columns_id := uniqid "cols_" st.nextId }] }] }]
           organization := organization }] ∧
    (createInitialInformationSchema D ds organization st).dataSources =
      [{ ds with settings :=
          { informationSchemaId := some (uniqid "infsch_" (st.nextId + 1))
            other := ds.settings.other } }] := by
  have hgen := generate_ok D ds.type g f raw _ hg hf hraw hfmt
  unfold createInitialInformationSchema
  rw [hgen]
  dsimp only
  simp only [persistDatabases, persistSchemas, persistTables,
    createInformationSchemaColumns, toInterface, createInformationSchema]
  rw [if_pos (uniqid_infsch_ne_empty (st.nextId + 1))]
  unfold updateDataSource
  dsimp only
  rw [hds]
  simp [horg]

/-- C7 witness: the full-sync scenario at the concrete fixtures. -/
theorem C7_witness :
    (createInitialInformationSchema threeColsDriver ds0 "org1" st0).columnsDocs =
      [{ id := "cols_0"
         organization := "org1"
         columns := [col1, col2, col3]
         dateCreated := 17
         dateUpdated := 17
         _id := "oid_0"
         __v := 0 }] ∧
    (createInitialInformationSchema threeColsDriver ds0 "org1" st0).infoSchemaDocs =
      [{ id := "infsch_1"
         databases := [{ database_name := "db1"
                         schemas := [{ schema_name := "sch1"
                                       tables := [{ table_name := "tbl1"
                                                    columns := [col1, col2, col3]
                                                    columns_id := "cols_0" }] }] }]
         organization := "org1" }] ∧
    (createInitialInformationSchema threeColsDriver ds0 "org1" st0).dataSources =
      [{ ds0 with settings :=
          { informationSchemaId := some "infsch_1"
            other := ds0.settings.other } }] :=
  C7_full_sync threeColsDriver ds0 "org1" st0
    (fun _ => .ok { raw := "rawblob" })
    (fun _ _ =>
      .ok [{ database_name := "db1"
             schemas := [{ schema_name := "sch1"
                           tables := [{ table_name := "tbl1"
                                        columns := [col1, col2, col3]
                                        columns_id := "" }] }] }])
    { raw := "rawblob" } "db1" "sch1" "tbl1" "" col1 col2 col3
    rfl rfl rfl rfl rfl rfl

/-- C8: a driver lacking either test-query capability makes `testQuery`
fail with the capability-unsupported error before building or running any
query — the driver-call trace is empty. -/
theorem C8_testQuery_unsupported (D : Integration) (query : String)
    (h : D.getTestQueryCap = none ∨ D.runTestQueryCap = none) :
    testQuery D query = (.error "Unable to test query.", []) := by
  unfold testQuery
  cases hg : D.getTestQueryCap with
  | none => rfl
  | some g =>
    cases hr : D.runTestQueryCap with
    | none => rfl
    | some r =>
      rw [hg, hr] at h
      rcases h with h | h <;> simp at h

/-- C8 witness: the capability-less sample driver fails fast with an empty
call trace. -/
theorem C8_witness :
    testQuery sampleDriver "SELECT 1" = (.error "Unable to test query.", []) :=
  C8_testQuery_unsupported sampleDriver "SELECT 1" (Or.inl rfl)

/-- C9: with both capabilities present, a throwing `runTestQuery` makes
`testQuery` return the thrown message together with the bounded sql built
by `getTestQuery`; the error is a returned result, not a propagated throw,
and the trace shows exactly one execution attempt. -/
theorem C9_testQuery_failure (D : Integration) (query : String)
    (g : String → String)
    (r : String → Except String (List TestQueryRow × Nat)) (msg : String)
    (hg : D.getTestQueryCap = some g) (hr : D.runTestQueryCap = some r)
    (herr : r (g query) = .error msg) :
    testQuery D query =
      (.ok { results := none, duration := none,
             error := some msg, sql := some (g query) },
       [{ capability := "getTestQuery", argument := query },
        { capability := "runTestQuery", argument := g query }]) := by
  unfold testQuery
  rw [hg, hr]
  dsimp only
  rw [herr]

/-- C9 witness: the failing-query driver returns the message and the
bounded sql at a concrete query. -/
theorem C9_witness :
    testQuery failingQueryDriver "SELECT 1" =
      (.ok { results := none, duration := none,
             error := some "syntax error",
             sql := some "SELECT * FROM (SELECT 1) LIMIT 5" },
       [{ capability := "getTestQuery", argument := "SELECT 1" },
        { capability := "runTestQuery",
          argument := "SELECT * FROM (SELECT 1) LIMIT 5" }]) :=
  C9_testQuery_failure failingQueryDriver "SELECT 1"
    (fun q => "SELECT * FROM (" ++ q ++ ") LIMIT 5")
    (fun _ => .error "syntax error") "syntax error" rfl rfl rfl

/-- C10: `createInformationSchemaColumns` returns exactly the interface
fields — the given columns and organization, a fresh id carrying the
`cols_` marker, and the creation dates — with the Mongo-internal `__v` and
`_id` fields omitted by construction of the interface type; the id is new
on every call, so a resync never reuses an old document's id. -/
theorem C10_create_columns (C : List Column) (O : String) (st : DocStore) :
    (createInformationSchemaColumns C O st).1 =
      { id := uniqid "cols_" st.nextId
        organization := O
        columns := C
        dateCreated := st.now
        dateUpdated := st.now } ∧
    (∃ s, (createInformationSchemaColumns C O st).1.id = "cols_" ++ s) ∧
    (createInformationSchemaColumns C O st).2.nextId = st.nextId + 1 ∧
    (∀ (C' : List Column) (O' : String) (st' : DocStore),
      st'.nextId ≠ st.nextId →
      (createInformationSchemaColumns C' O' st').1.id ≠
        (createInformationSchemaColumns C O st).1.id) := by
  refine ⟨rfl, ⟨Nat.repr st.nextId, rfl⟩, rfl, ?_⟩
  intro C' O' st' hne heq
  exact hne (uniqid_injective "cols_" st'.nextId st.nextId heq)

/-- C10 witness: two successive calls on the concrete store produce
distinct ids. -/
theorem C10_witness :
    (createInformationSchemaColumns [col1] "org1"
        (createInformationSchemaColumns [col1] "org1" st0).2).1.id ≠
      (createInformationSchemaColumns [col1] "org1" st0).1.id :=
  (C10_create_columns [col1] "org1" st0).2.2.2 [col1] "org1"
    (createInformationSchemaColumns [col1] "org1" st0).2 (by decide)
